import Mathlib

/-!
Shallow embedding of the cgroup CPU/memory controller logic of the
Granulate utils repository (granulate_utils/linux/cgroups/cpu_controller.py
and its collaborators), together with proofs of the behavioral properties
stated in the repository specification.

A cgroup directory is modelled as an association list from interface-file
names to their textual contents.  Python integer parsing (`int(...)`) and
rendering (`str(...)`) are modelled by executable char-level functions, and
Python float arithmetic on quota/period values is modelled by exact rational
arithmetic.  Fallible Python calls (file reads, `int()` parses, division)
are modelled in the `Except` monad over an explicit error type.
-/

namespace GranulateCgroups

/-- Contents of one cgroup directory: interface-file name paired with its
textual content.  `read_from_interface_file` / `write_to_interface_file` of
the cgroup core become lookup and overwrite on this list. -/
abbrev FileSystem := List (String × String)

/-- Reading an interface file: first binding of the name, if present. -/
def readFile : FileSystem → String → Option String
  | [], _ => none
  | (k, v) :: rest, name => if k = name then some v else readFile rest name

/-- Writing an interface file overwrites the existing content (Python
`open(..., "w").write(...)`), creating the entry when absent. -/
def writeFile : FileSystem → String → String → FileSystem
  | [], name, value => [(name, value)]
  | (k, v) :: rest, name, value =>
    if k = name then (name, value) :: rest else (k, v) :: writeFile rest name value

theorem readFile_writeFile_self (fs : FileSystem) (n v : String) :
    readFile (writeFile fs n v) n = some v := by
  induction fs with
  | nil => simp [readFile, writeFile]
  | cons hd tl ih =>
    obtain ⟨k, w⟩ := hd
    by_cases hk : k = n
    · subst hk
      simp [readFile, writeFile]
    · simp only [writeFile, if_neg hk, readFile]
      exact ih

theorem readFile_writeFile_ne (fs : FileSystem) (n m v : String) (h : m ≠ n) :
    readFile (writeFile fs n v) m = readFile fs m := by
  induction fs with
  | nil =>
    simp only [writeFile, readFile]
    rw [if_neg (fun hh => h hh.symm)]
  | cons hd tl ih =>
    obtain ⟨k, w⟩ := hd
    by_cases hk : k = n
    · subst hk
      simp only [writeFile, if_pos rfl, readFile]
      rw [if_neg (fun hh => h hh.symm), if_neg (fun hh => h hh.symm)]
    · simp only [writeFile, if_neg hk, readFile]
      by_cases hm : k = m
      · rw [if_pos hm, if_pos hm]
      · rw [if_neg hm, if_neg hm]
        exact ih

/-! ### Decimal rendering and parsing of integers

`intToStr` models Python `str(i)` for an integer `i`; `parseInt` models
Python `int(s)` on the sign-and-digits fragment that the repository ever
produces or consumes (optional sign followed by decimal digits, leading
zeros accepted, anything else a `ValueError`). -/

/-- Digit value `d` (with `d < 10`) as its ASCII character. -/
def charOfDigit (d : Nat) : Char := Char.ofNat (48 + d)

/-- Inverse of `charOfDigit`: value of an ASCII decimal digit. -/
def digitOfChar (c : Char) : Option Nat :=
  if 48 ≤ c.toNat ∧ c.toNat ≤ 57 then some (c.toNat - 48) else none

/-- Most-significant-first decimal digits of `n`, with explicit fuel so the
recursion is structural (the fuel `n + 1` always suffices). -/
def natToDigitsFuel : Nat → Nat → List Nat
  | 0, _ => []
  | fuel + 1, n => if n < 10 then [n] else natToDigitsFuel fuel (n / 10) ++ [n % 10]

/-- Most-significant-first decimal digits of `n`. -/
def natToDigits (n : Nat) : List Nat := natToDigitsFuel (n + 1) n

/-- Value of a most-significant-first digit list. -/
def digitsVal (ds : List Nat) : Nat := ds.foldl (fun a d => 10 * a + d) 0

theorem natToDigitsFuel_ne_nil (fuel n : Nat) (h : n < fuel) :
    natToDigitsFuel fuel n ≠ [] := by
  cases fuel with
  | zero => omega
  | succ f =>
    by_cases hn : n < 10 <;> simp [natToDigitsFuel, hn]

theorem natToDigitsFuel_lt_ten (fuel n : Nat) (h : n < fuel) :
    ∀ d ∈ natToDigitsFuel fuel n, d < 10 := by
  induction fuel generalizing n with
  | zero => omega
  | succ f ih =>
    by_cases hn : n < 10
    · intro d hd
      simp [natToDigitsFuel, hn] at hd
      omega
    · have hdiv : n / 10 < n := Nat.div_lt_self (by omega) (by omega)
      simp only [natToDigitsFuel, hn, if_false, List.mem_append, List.mem_singleton]
      intro d hd
      rcases hd with hd | hd
      · exact ih (n / 10) (by omega) d hd
      · subst hd
        exact Nat.mod_lt _ (by omega)

theorem digitsVal_append_single (l : List Nat) (d : Nat) :
    digitsVal (l ++ [d]) = 10 * digitsVal l + d := by
  simp [digitsVal, List.foldl_append]

theorem digitsVal_natToDigitsFuel (fuel n : Nat) (h : n < fuel) :
    digitsVal (natToDigitsFuel fuel n) = n := by
  induction fuel generalizing n with
  | zero => omega
  | succ f ih =>
    by_cases hn : n < 10
    · simp [natToDigitsFuel, hn, digitsVal]
    · have hdiv : n / 10 < n := Nat.div_lt_self (by omega) (by omega)
      simp only [natToDigitsFuel, hn, if_false]
      rw [digitsVal_append_single, ih (n / 10) (by omega)]
      omega

theorem digitsVal_natToDigits (n : Nat) : digitsVal (natToDigits n) = n :=
  digitsVal_natToDigitsFuel (n + 1) n (Nat.lt_succ_self n)

theorem natToDigits_ne_nil (n : Nat) : natToDigits n ≠ [] :=
  natToDigitsFuel_ne_nil (n + 1) n (Nat.lt_succ_self n)

theorem natToDigits_lt_ten (n : Nat) : ∀ d ∈ natToDigits n, d < 10 :=
  natToDigitsFuel_lt_ten (n + 1) n (Nat.lt_succ_self n)

theorem digitOfChar_charOfDigit (d : Nat) (h : d < 10) :
    digitOfChar (charOfDigit d) = some d := by
  interval_cases d <;> decide

theorem charOfDigit_ne_minus (d : Nat) (h : d < 10) : charOfDigit d ≠ '-' := by
  interval_cases d <;> decide

theorem charOfDigit_ne_plus (d : Nat) (h : d < 10) : charOfDigit d ≠ '+' := by
  interval_cases d <;> decide

theorem charOfDigit_ne_space (d : Nat) (h : d < 10) : charOfDigit d ≠ ' ' := by
  interval_cases d <;> decide

theorem charOfDigit_ne_m (d : Nat) (h : d < 10) : charOfDigit d ≠ 'm' := by
  interval_cases d <;> decide

/-- Accumulating parse of a digit run; `none` on the first non-digit. -/
def parseDigitsAux : List Char → Nat → Option Nat
  | [], acc => some acc
  | c :: rest, acc =>
    match digitOfChar c with
    | some d => parseDigitsAux rest (10 * acc + d)
    | none => none

/-- Parse a nonempty run of decimal digits; `none` on empty input. -/
def parseDigits (cs : List Char) : Option Nat :=
  match cs with
  | [] => none
  | _ => parseDigitsAux cs 0

theorem parseDigitsAux_map_charOfDigit (ds : List Nat) (acc : Nat)
    (h : ∀ d ∈ ds, d < 10) :
    parseDigitsAux (ds.map charOfDigit) acc =
      some (ds.foldl (fun a d => 10 * a + d) acc) := by
  induction ds generalizing acc with
  | nil => simp [parseDigitsAux]
  | cons d rest ih =>
    have hd : d < 10 := h d (by simp)
    simp only [List.map_cons, parseDigitsAux, digitOfChar_charOfDigit d hd,
      List.foldl_cons]
    exact ih (10 * acc + d) (fun x hx => h x (by simp [hx]))

theorem parseDigits_map_natToDigits (n : Nat) :
    parseDigits ((natToDigits n).map charOfDigit) = some n := by
  have hne : (natToDigits n).map charOfDigit ≠ [] := by
    simp [natToDigits_ne_nil n]
  rw [parseDigits.eq_def]
  split
  · exact absurd (by assumption) hne
  · rw [parseDigitsAux_map_charOfDigit (natToDigits n) 0 (natToDigits_lt_ten n)]
    rw [show (fun (a d : Nat) => 10 * a + d) = fun a d => 10 * a + d from rfl]
    exact congrArg some (digitsVal_natToDigits n)

/-- Python `str(i)` for an integer: optional minus sign, then decimal digits. -/
def intToStr (i : Int) : String :=
  if i < 0 then String.mk ('-' :: (natToDigits i.natAbs).map charOfDigit)
  else String.mk ((natToDigits i.natAbs).map charOfDigit)

/-- Python `int(s)` on the fragment used by the repository: optional sign
followed by at least one decimal digit; everything else is a parse failure
(`ValueError`). -/
def parseIntCore (c : Char) (rest : List Char) : Option Int :=
  if c = '-' then (parseDigits rest).map (fun n => -(n : Int))
  else if c = '+' then (parseDigits rest).map (fun n => (n : Int))
  else (parseDigits (c :: rest)).map (fun n => (n : Int))

def parseInt (s : String) : Option Int :=
  match s.data with
  | [] => none
  | c :: rest => parseIntCore c rest

theorem parseInt_eq_core (s : String) (c : Char) (rest : List Char)
    (h : s.data = c :: rest) : parseInt s = parseIntCore c rest := by
  rw [parseInt, h]

theorem data_intToStr_nonneg (i : Int) (h : 0 ≤ i) :
    (intToStr i).data = (natToDigits i.natAbs).map charOfDigit := by
  rw [intToStr, if_neg (by omega)]

theorem data_intToStr_neg (i : Int) (h : i < 0) :
    (intToStr i).data = '-' :: (natToDigits i.natAbs).map charOfDigit := by
  rw [intToStr, if_pos h]

theorem parseInt_intToStr (i : Int) : parseInt (intToStr i) = some i := by
  by_cases h : i < 0
  · have h2 : -((i.natAbs : Int)) = i := by omega
    rw [parseInt_eq_core _ _ _ (data_intToStr_neg i h), parseIntCore, if_pos rfl,
      parseDigits_map_natToDigits]
    exact congrArg some h2
  · have hdata := data_intToStr_nonneg i (by omega)
    obtain ⟨d, ds, hds⟩ : ∃ d ds, natToDigits i.natAbs = d :: ds := by
      cases hd : natToDigits i.natAbs with
      | nil => exact absurd hd (natToDigits_ne_nil _)
      | cons d ds => exact ⟨d, ds, rfl⟩
    have hd10 : d < 10 := natToDigits_lt_ten i.natAbs d
      (by rw [hds]; exact List.mem_cons_self d ds)
    have h2 : ((i.natAbs : Int)) = i := by omega
    have hdata2 : (intToStr i).data = charOfDigit d :: ds.map charOfDigit := by
      rw [hdata, hds, List.map_cons]
    rw [parseInt_eq_core _ _ _ hdata2, parseIntCore]
    rw [if_neg (charOfDigit_ne_minus d hd10), if_neg (charOfDigit_ne_plus d hd10)]
    rw [show charOfDigit d :: ds.map charOfDigit = (d :: ds).map charOfDigit from rfl]
    rw [← hds, parseDigits_map_natToDigits]
    simp [h2]

theorem intToStr_data_ne_nil (i : Int) : (intToStr i).data ≠ [] := by
  by_cases h : i < 0
  · rw [data_intToStr_neg i h]
    simp
  · rw [data_intToStr_nonneg i (by omega)]
    simp [natToDigits_ne_nil]

theorem space_not_mem_intToStr_data (i : Int) : ' ' ∉ (intToStr i).data := by
  have hmap : ∀ c ∈ (natToDigits i.natAbs).map charOfDigit, c ≠ ' ' := by
    intro c hc
    rw [List.mem_map] at hc
    obtain ⟨d, hd, rfl⟩ := hc
    exact charOfDigit_ne_space d (natToDigits_lt_ten _ d hd)
  by_cases h : i < 0
  · rw [data_intToStr_neg i h]
    intro hmem
    rw [List.mem_cons] at hmem
    rcases hmem with heq | hmem
    · exact absurd heq (by decide)
    · exact hmap _ hmem rfl
  · rw [data_intToStr_nonneg i (by omega)]
    intro hmem
    exact hmap _ hmem rfl

theorem intToStr_ne_max (i : Int) : intToStr i ≠ "max" := by
  intro hcontra
  have hdata : (intToStr i).data = ['m', 'a', 'x'] := by rw [hcontra]
  by_cases h : i < 0
  · rw [data_intToStr_neg i h] at hdata
    exact absurd (List.head_eq_of_cons_eq hdata) (by decide)
  · rw [data_intToStr_nonneg i (by omega)] at hdata
    obtain ⟨d, ds, hds⟩ : ∃ d ds, natToDigits i.natAbs = d :: ds := by
      cases hd : natToDigits i.natAbs with
      | nil => exact absurd hd (natToDigits_ne_nil _)
      | cons d ds => exact ⟨d, ds, rfl⟩
    have hd10 : d < 10 := natToDigits_lt_ten i.natAbs d
      (by rw [hds]; exact List.mem_cons_self d ds)
    rw [hds, List.map_cons] at hdata
    exact absurd (List.head_eq_of_cons_eq hdata) (charOfDigit_ne_m d hd10)

/-! ### Whitespace splitting

Models Python `str.split()` with no argument for the space-separated
contents the repository reads and writes (fields never contain other
whitespace): split on spaces and drop empty fields. -/

/-- Split a char list at every space; empty fields are kept here and
dropped by `pySplit`. -/
def splitOnSpaceCs : List Char → List (List Char)
  | [] => [[]]
  | c :: rest =>
    if c = ' ' then [] :: splitOnSpaceCs rest
    else
      match splitOnSpaceCs rest with
      | [] => [[c]]
      | w :: ws => (c :: w) :: ws

/-- Python `s.split()` on space-separated content. -/
def pySplit (s : String) : List String :=
  ((splitOnSpaceCs s.data).filter (fun w => !w.isEmpty)).map String.mk

theorem splitOnSpaceCs_no_space (cs : List Char) (h : ' ' ∉ cs) :
    splitOnSpaceCs cs = [cs] := by
  induction cs with
  | nil => rfl
  | cons c rest ih =>
    have hc : c ≠ ' ' := fun hh => h (by simp [hh])
    have hrest : ' ' ∉ rest := fun hh => h (by simp [hh])
    rw [splitOnSpaceCs, if_neg hc, ih hrest]

theorem splitOnSpaceCs_append (a b : List Char) (ha : ' ' ∉ a) :
    splitOnSpaceCs (a ++ ' ' :: b) = a :: splitOnSpaceCs b := by
  induction a with
  | nil =>
    simp only [List.nil_append]
    rw [splitOnSpaceCs, if_pos rfl]
  | cons c rest ih =>
    have hc : c ≠ ' ' := fun hh => ha (by simp [hh])
    have hrest : ' ' ∉ rest := fun hh => ha (by simp [hh])
    simp only [List.cons_append]
    rw [splitOnSpaceCs, if_neg hc, ih hrest]

theorem data_append (a b : String) : (a ++ b).data = a.data ++ b.data := rfl

theorem mk_data (s : String) : String.mk s.data = s := rfl

theorem pySplit_pair (a b : String)
    (ha1 : a.data ≠ []) (ha2 : ' ' ∉ a.data)
    (hb1 : b.data ≠ []) (hb2 : ' ' ∉ b.data) :
    pySplit (a ++ " " ++ b) = [a, b] := by
  have hdata : (a ++ " " ++ b).data = a.data ++ ' ' :: b.data := by
    have hsp : (" " : String).data = [' '] := rfl
    rw [data_append, data_append, hsp, List.append_assoc]
    rfl
  rw [pySplit, hdata, splitOnSpaceCs_append a.data b.data ha2,
    splitOnSpaceCs_no_space b.data hb2]
  have ea : a.data.isEmpty = false := by
    cases hd : a.data with
    | nil => exact absurd hd ha1
    | cons x xs => rfl
  have eb : b.data.isEmpty = false := by
    cases hd : b.data with
    | nil => exact absurd hd hb1
    | cons x xs => rfl
  simp only [List.filter, ea, eb, Bool.not_false, List.map_cons, List.map_nil,
    mk_data]

/-! ### Error model and fallible primitives -/

/-- Caller-visible failure conditions of the modelled Python code. -/
inductive PyError where
  /-- `ValueError` from `int(...)` on a non-numeric string. -/
  | valueError : PyError
  /-- `ZeroDivisionError` from `quota / period` with a zero period. -/
  | zeroDivisionError : PyError
  /-- `FileNotFoundError` reading a missing interface file. -/
  | fileNotFound (name : String) : PyError
  /-- `IndexError` from subscripting a too-short split result. -/
  | indexError : PyError
  /-- `AssertionError` with its message (delegation failure). -/
  | assertionError (msg : String) : PyError
  /-- `CgroupInterfaceNotSupported` with its message. -/
  | cgroupInterfaceNotSupported (msg : String) : PyError
deriving DecidableEq

/-- `CgroupCore.read_from_interface_file`: text of `full_path/name`, a
`FileNotFoundError` when the file does not exist. -/
def readInterfaceFile (fs : FileSystem) (name : String) : Except PyError String :=
  match readFile fs name with
  | some v => .ok v
  | none => .error (.fileNotFound name)

/-- Python `int(s)` as a fallible computation. -/
def pyIntE (s : String) : Except PyError Int :=
  match parseInt s with
  | some n => .ok n
  | none => .error .valueError

theorem pyIntE_intToStr (i : Int) : pyIntE (intToStr i) = .ok i := by
  rw [pyIntE, parseInt_intToStr]

/-- Python true division `a / b` of two integers, modelled exactly in `ℚ`;
raises `ZeroDivisionError` on a zero denominator. -/
def pyDiv (a b : Int) : Except PyError Rat :=
  if b = 0 then .error .zeroDivisionError else .ok ((a : Rat) / (b : Rat))

/-- Python `int(x)` on a float/rational: truncation toward zero. -/
def pyTruncInt (q : Rat) : Int :=
  if 0 ≤ q.num then (q.num.toNat / q.den : Nat) else -((-q.num).toNat / q.den : Nat)

theorem pyTruncInt_eq (q : Rat) :
    pyTruncInt q = if 0 ≤ q then ⌊q⌋ else ⌈q⌉ := by
  rw [pyTruncInt]
  by_cases h : 0 ≤ q.num
  · rw [if_pos h, if_pos (Rat.num_nonneg.mp h), Rat.floor_def]
    rw [Int.natCast_ediv]
    congr 1
    omega
  · rw [if_neg h, if_neg (fun hq => h (Rat.num_nonneg.mpr hq))]
    have hceil : ⌈q⌉ = -⌊-q⌋ := by rw [Int.floor_neg, neg_neg]
    rw [hceil, Rat.floor_def, Rat.num_neg_eq_neg_num, Rat.den_neg_eq_den]
    have htn : (((-q.num).toNat : Int)) = -q.num := by omega
    rw [Int.natCast_ediv, htn]
    rfl

theorem pyTruncInt_hundred_neg :
    pyTruncInt (((100 : Int) : Rat) * (-101 / 200)) = -50 := by
  have h1 : ((100 : Int) : Rat) * (-101 / 200) = -(101 / 2 : Rat) := by norm_num
  rw [h1, pyTruncInt_eq, if_neg (by norm_num)]
  rw [Int.ceil_eq_iff]
  constructor <;> norm_num

theorem pyTruncInt_hundred_pos :
    pyTruncInt (((100 : Int) : Rat) * (101 / 200)) = 50 := by
  have h1 : ((100 : Int) : Rat) * (101 / 200) = (101 / 2 : Rat) := by norm_num
  rw [h1, pyTruncInt_eq, if_pos (by norm_num)]
  rw [Int.floor_eq_iff]
  constructor <;> norm_num

/-! ### Cgroup v2 value conversion (`cgroup.py` is not among the sources) -/

/-- Modelled from the spec: `CgroupCoreV2.convert_inner_value_to_outer` of
`granulate_utils/linux/cgroups/cgroup.py`, which is absent from the
available sources — spec section 4.1: "normalize the literal `max` to -1";
any other raw value is parsed as a Python integer. -/
def convert_inner_value_to_outer (raw : String) : Except PyError Int :=
  if raw = "max" then .ok (-1) else pyIntE raw

/-- Modelled from the spec: `CgroupCoreV2.convert_outer_value_to_inner` of
`granulate_utils/linux/cgroups/cgroup.py`, which is absent from the
available sources — spec section 4.1: produce the literal `max` from -1;
any other value is rendered with Python `str`. -/
def convert_outer_value_to_inner (value : Int) : String :=
  if value = -1 then "max" else intToStr value

theorem convert_inner_intToStr (i : Int) :
    convert_inner_value_to_outer (intToStr i) = .ok i := by
  rw [convert_inner_value_to_outer, if_neg (intToStr_ne_max i), pyIntE_intToStr]

theorem convert_roundtrip_outer (v : Int) :
    convert_inner_value_to_outer (convert_outer_value_to_inner v) = .ok v := by
  by_cases h : v = -1
  · subst h
    rfl
  · rw [convert_outer_value_to_inner, if_neg h, convert_inner_intToStr]

theorem convert_outer_data_ne_nil (v : Int) :
    (convert_outer_value_to_inner v).data ≠ [] := by
  rw [convert_outer_value_to_inner]
  by_cases h : v = -1
  · rw [if_pos h]
    decide
  · rw [if_neg h]
    exact intToStr_data_ne_nil v

theorem space_not_mem_convert_outer_data (v : Int) :
    ' ' ∉ (convert_outer_value_to_inner v).data := by
  rw [convert_outer_value_to_inner]
  by_cases h : v = -1
  · rw [if_pos h]
    decide
  · rw [if_neg h]
    exact space_not_mem_intToStr_data v

/-! ### CPU controller (granulate_utils/linux/cgroups/cpu_controller.py)

The abstract class `CpuController` with concrete variants `CpuControllerV1`
and `CpuControllerV2` becomes a two-point variant tag with the abstract
methods dispatching on it, exactly as `CpuControllerFactory` selects the
variant from `core.is_v1`. -/

/-- Variant tag: which concrete `CpuController` subclass is bound. -/
inductive CpuVariantKind where
  | v1 : CpuVariantKind
  | v2 : CpuVariantKind
deriving DecidableEq

/-- `CpuControllerV1.CPU_PERIOD_FILE`. -/
def CPU_PERIOD_FILE : String := "cpu.cfs_period_us"

/-- `CpuControllerV1.CPU_QUOTA_FILE`. -/
def CPU_QUOTA_FILE : String := "cpu.cfs_quota_us"

/-- `CpuControllerV2.CPU_LIMIT_FILE`. -/
def CPU_LIMIT_FILE : String := "cpu.max"

/-- `CpuLimitParams` dataclass: `{period, quota}` in microseconds. -/
structure CpuLimitParams where
  period : Int
  quota : Int
deriving DecidableEq

/-- `CpuControllerV1.get_cpu_limit_period`: `int(read(cpu.cfs_period_us))`. -/
def cpuV1_get_cpu_limit_period (fs : FileSystem) : Except PyError Int :=
  match readInterfaceFile fs CPU_PERIOD_FILE with
  | .ok s => pyIntE s
  | .error e => .error e

/-- `CpuControllerV1.get_cpu_limit_quota`: `int(read(cpu.cfs_quota_us))`. -/
def cpuV1_get_cpu_limit_quota (fs : FileSystem) : Except PyError Int :=
  match readInterfaceFile fs CPU_QUOTA_FILE with
  | .ok s => pyIntE s
  | .error e => .error e

/-- `CpuControllerV1.get_cpu_limit_params`: period read first, then quota. -/
def cpuV1_get_cpu_limit_params (fs : FileSystem) : Except PyError CpuLimitParams :=
  match cpuV1_get_cpu_limit_period fs with
  | .error e => .error e
  | .ok period =>
    match cpuV1_get_cpu_limit_quota fs with
    | .error e => .error e
    | .ok quota => .ok (CpuLimitParams.mk period quota)

/-- `CpuControllerV2.get_cpu_limit_params`: split `cpu.max` on whitespace,
parse field 1 as the period (`int`), convert field 0 (possibly `max`) to the
outer quota; a missing field is an `IndexError`. -/
def cpuV2_get_cpu_limit_params (fs : FileSystem) : Except PyError CpuLimitParams :=
  match readInterfaceFile fs CPU_LIMIT_FILE with
  | .error e => .error e
  | .ok s =>
    match pySplit s with
    | q0 :: p1 :: _ =>
      match pyIntE p1 with
      | .error e => .error e
      | .ok period =>
        match convert_inner_value_to_outer q0 with
        | .error e => .error e
        | .ok quota => .ok (CpuLimitParams.mk period quota)
    | _ => .error .indexError

/-- `CpuController.get_cpu_limit_params` dispatched on the bound variant. -/
def get_cpu_limit_params (k : CpuVariantKind) (fs : FileSystem) :
    Except PyError CpuLimitParams :=
  match k with
  | .v1 => cpuV1_get_cpu_limit_params fs
  | .v2 => cpuV2_get_cpu_limit_params fs

/-- `CpuController.get_cpu_limit_period` dispatched on the bound variant
(the v2 variant goes through `get_cpu_limit_params`). -/
def get_cpu_limit_period (k : CpuVariantKind) (fs : FileSystem) :
    Except PyError Int :=
  match k with
  | .v1 => cpuV1_get_cpu_limit_period fs
  | .v2 =>
    match cpuV2_get_cpu_limit_params fs with
    | .ok params => .ok params.period
    | .error e => .error e

/-- `CpuController.get_cpu_limit_quota` dispatched on the bound variant. -/
def get_cpu_limit_quota (k : CpuVariantKind) (fs : FileSystem) :
    Except PyError Int :=
  match k with
  | .v1 => cpuV1_get_cpu_limit_quota fs
  | .v2 =>
    match cpuV2_get_cpu_limit_params fs with
    | .ok params => .ok params.quota
    | .error e => .error e

/-- `CpuController.get_cpu_limit_cores`:
`quota / period if quota != -1 else -1.0`. -/
def get_cpu_limit_cores (k : CpuVariantKind) (fs : FileSystem) :
    Except PyError Rat :=
  match get_cpu_limit_params k fs with
  | .error e => .error e
  | .ok params =>
    if params.quota ≠ -1 then pyDiv params.quota params.period else .ok (-1)

/-- `CpuControllerV1.set_cpu_limit_quota`: write `str(quota)` to
`cpu.cfs_quota_us`; `CpuControllerV2.set_cpu_limit_quota`: read the current
period, then write `f"{quota_str} {period}"` to `cpu.max`. -/
def set_cpu_limit_quota (k : CpuVariantKind) (fs : FileSystem) (quota : Int) :
    Except PyError FileSystem :=
  match k with
  | .v1 => .ok (writeFile fs CPU_QUOTA_FILE (intToStr quota))
  | .v2 =>
    match get_cpu_limit_period .v2 fs with
    | .error e => .error e
    | .ok period =>
      .ok (writeFile fs CPU_LIMIT_FILE
        (convert_outer_value_to_inner quota ++ " " ++ intToStr period))

/-- `CpuController.set_cpu_limit_cores`: read the current period, then
`set_cpu_limit_quota(int(period * cores))`. -/
def set_cpu_limit_cores (k : CpuVariantKind) (fs : FileSystem) (cores : Rat) :
    Except PyError FileSystem :=
  match get_cpu_limit_period k fs with
  | .error e => .error e
  | .ok period => set_cpu_limit_quota k fs (pyTruncInt ((period : Rat) * cores))

/-- `CpuController.reset_cpu_limit`: `set_cpu_limit_quota(-1)`, one shared
definition for both variants. -/
def reset_cpu_limit (k : CpuVariantKind) (fs : FileSystem) :
    Except PyError FileSystem :=
  set_cpu_limit_quota k fs (-1)

/-! ### The state produced by a quota write, and what reads it back -/

/-- The file system after `set_cpu_limit_quota` succeeds with quota `q`
while the current period is `p` (the v1 write ignores `p`). -/
def quotaWriteResult (k : CpuVariantKind) (fs : FileSystem) (q p : Int) :
    FileSystem :=
  match k with
  | .v1 => writeFile fs CPU_QUOTA_FILE (intToStr q)
  | .v2 =>
    writeFile fs CPU_LIMIT_FILE
      (convert_outer_value_to_inner q ++ " " ++ intToStr p)

theorem set_cpu_limit_quota_eq (k : CpuVariantKind) (fs : FileSystem)
    (p q : Int) (hp : get_cpu_limit_period k fs = .ok p) :
    set_cpu_limit_quota k fs q = .ok (quotaWriteResult k fs q p) := by
  cases k with
  | v1 => rfl
  | v2 => simp [set_cpu_limit_quota, hp, quotaWriteResult]

theorem quota_file_ne_period_file : CPU_PERIOD_FILE ≠ CPU_QUOTA_FILE := by decide

theorem params_after_quota_write (k : CpuVariantKind) (fs : FileSystem)
    (p q : Int) (hp : get_cpu_limit_period k fs = .ok p) :
    get_cpu_limit_params k (quotaWriteResult k fs q p) =
      .ok (CpuLimitParams.mk p q) := by
  cases k with
  | v1 =>
    cases hr : readFile fs CPU_PERIOD_FILE with
    | none =>
      rw [get_cpu_limit_period, cpuV1_get_cpu_limit_period, readInterfaceFile,
        hr] at hp
      exact absurd hp (by simp)
    | some s =>
      rw [get_cpu_limit_period, cpuV1_get_cpu_limit_period, readInterfaceFile,
        hr] at hp
      simp only [] at hp
      simp [get_cpu_limit_params, cpuV1_get_cpu_limit_params, quotaWriteResult,
        cpuV1_get_cpu_limit_period, cpuV1_get_cpu_limit_quota, readInterfaceFile,
        readFile_writeFile_ne fs CPU_QUOTA_FILE CPU_PERIOD_FILE _
          quota_file_ne_period_file,
        hr, readFile_writeFile_self, hp, pyIntE_intToStr]
  | v2 =>
    simp only [get_cpu_limit_params, cpuV2_get_cpu_limit_params, quotaWriteResult,
      readInterfaceFile, readFile_writeFile_self]
    rw [pySplit_pair _ _ (convert_outer_data_ne_nil q)
        (space_not_mem_convert_outer_data q) (intToStr_data_ne_nil p)
        (space_not_mem_intToStr_data p)]
    simp [pyIntE_intToStr, convert_roundtrip_outer q]

theorem period_after_quota_write (k : CpuVariantKind) (fs : FileSystem)
    (p q : Int) (hp : get_cpu_limit_period k fs = .ok p) :
    get_cpu_limit_period k (quotaWriteResult k fs q p) = .ok p := by
  have hparams := params_after_quota_write k fs p q hp
  cases k with
  | v1 =>
    rw [get_cpu_limit_params, cpuV1_get_cpu_limit_params] at hparams
    rw [get_cpu_limit_period]
    cases hper : cpuV1_get_cpu_limit_period (quotaWriteResult .v1 fs q p) with
    | ok x =>
      rw [hper] at hparams
      cases hquo : cpuV1_get_cpu_limit_quota (quotaWriteResult .v1 fs q p) with
      | ok y =>
        rw [hquo] at hparams
        simp at hparams
        rw [hparams.1]
      | error e =>
        rw [hquo] at hparams
        exact absurd hparams (by simp)
    | error e =>
      rw [hper] at hparams
      exact absurd hparams (by simp)
  | v2 =>
    rw [get_cpu_limit_params] at hparams
    rw [get_cpu_limit_period, hparams]

theorem quota_after_quota_write (k : CpuVariantKind) (fs : FileSystem)
    (p q : Int) (hp : get_cpu_limit_period k fs = .ok p) :
    get_cpu_limit_quota k (quotaWriteResult k fs q p) = .ok q := by
  have hparams := params_after_quota_write k fs p q hp
  cases k with
  | v1 =>
    simp [get_cpu_limit_quota, cpuV1_get_cpu_limit_quota, quotaWriteResult,
      readInterfaceFile, readFile_writeFile_self, pyIntE_intToStr]
  | v2 =>
    rw [get_cpu_limit_params] at hparams
    rw [get_cpu_limit_quota, hparams]

theorem cores_after_quota_write (k : CpuVariantKind) (fs : FileSystem)
    (p q : Int) (hp : get_cpu_limit_period k fs = .ok p) (hpne : p ≠ 0)
    (hq : q ≠ -1) :
    get_cpu_limit_cores k (quotaWriteResult k fs q p) =
      .ok ((q : Rat) / (p : Rat)) := by
  rw [get_cpu_limit_cores, params_after_quota_write k fs p q hp]
  simp [hq, pyDiv, hpne]

theorem cores_after_unbounded_write (k : CpuVariantKind) (fs : FileSystem)
    (p : Int) (hp : get_cpu_limit_period k fs = .ok p) :
    get_cpu_limit_cores k (quotaWriteResult k fs (-1) p) = .ok (-1) := by
  rw [get_cpu_limit_cores, params_after_quota_write k fs p (-1) hp]
  simp

/-! ### Cgroup v2 sub-cgroup creation (`cgroup.py` is not among the sources) -/

/-- One level of the cgroup-v2 unified hierarchy as seen by
`get_subcgroup`: its directory path (as segments), the controllers its
`cgroup.controllers` file lists (a missing or empty file is the empty
list), and the controllers its `cgroup.subtree_control` file delegates. -/
structure CgroupDirV2 where
  path : List String
  controllers : List String
  subtree_control : List String
deriving DecidableEq

/-- ASCII apostrophe, as used by the `AssertionError` message format. -/
def squote : String := String.singleton (Char.ofNat 39)

/-- Message of the delegation-failure `AssertionError`, naming the
controller and the v2 mount root, exactly as `test_cgroup_v2` asserts it. -/
def delegation_error_msg (controller rootPathStr : String) : String :=
  "Controller " ++ squote ++ controller ++ squote ++
    " is not supported under " ++ rootPathStr

/-- Modelled from the spec: `CgroupCoreV2.get_subcgroup` of
`granulate_utils/linux/cgroups/cgroup.py`, which is absent from the
available sources — spec section 4.1: walk from the current core upward to
the mount root inclusive (`ancestors` is that chain, current core first,
root last); at the nearest level whose `cgroup.controllers` lists the
controller, append `+controller` to its `cgroup.subtree_control` unless
already delegated, and create the child directory named `name` there —
the repository tests (`test_cgroup_v2`, `test_cgroup_v2_fallback_to_root`)
pin the child under the delegating ancestor.  When no level supports the
controller the call raises an `AssertionError` naming the controller and
the root path, and no directory is created (the child path only exists in
the success result).  Returns the updated chain and the child path. -/
def get_subcgroup_v2 (ancestors : List CgroupDirV2) (rootPathStr : String)
    (controller name : String) :
    Except PyError (List CgroupDirV2 × List String) :=
  match ancestors with
  | [] => .error (.assertionError (delegation_error_msg controller rootPathStr))
  | d :: rest =>
    if controller ∈ d.controllers then
      .ok ((if controller ∈ d.subtree_control then d
            else CgroupDirV2.mk d.path d.controllers
              (d.subtree_control ++ [controller])) :: rest,
           d.path ++ [name])
    else
      match get_subcgroup_v2 rest rootPathStr controller name with
      | .ok (ds, child) => .ok (d :: ds, child)
      | .error e => .error e

/-! ### Memory controller peak-usage query
(`memory_controller.py` is not among the sources) -/

/-- Modelled from the spec: `MemoryControllerV2.get_max_usage_in_bytes` of
`granulate_utils/linux/cgroups/memory_controller.py`, which is absent from
the available sources — spec section 4.4: "V2 has no equivalent file — this
call fails with a controller-interface-not-supported condition rather than
returning a sentinel"; the message is the one `test_memory_controller_v2`
asserts. -/
def memV2_get_max_usage_in_bytes (_fs : FileSystem) : Except PyError Int :=
  .error (.cgroupInterfaceNotSupported
    "Interface file max_usage_in_bytes is not supported in cGroup v2")

/-- Modelled from the spec: `MemoryControllerV1.get_max_usage_in_bytes` of
`granulate_utils/linux/cgroups/memory_controller.py`, absent from the
available sources — spec section 4.4: V1 reads `memory.max_usage_in_bytes`
(historical peak) as an integer. -/
def memV1_get_max_usage_in_bytes (fs : FileSystem) : Except PyError Int :=
  match readInterfaceFile fs "memory.max_usage_in_bytes" with
  | .ok s => pyIntE s
  | .error e => .error e

/-! ### Claims -/

/-- C1: for every cgroup variant (v1 or v2), `get_cpu_limit_cores` returns
`quota / period` when the quota read from the cgroup is not -1 (and the
period is nonzero, so the division is defined), and returns exactly -1.0
when the quota is -1; in the unbounded case the result is -1.0 with no
division performed — it holds even for a zero period. -/
theorem c1_get_cpu_limit_cores (k : CpuVariantKind) (fs : FileSystem)
    (p q : Int) (h : get_cpu_limit_params k fs = .ok (CpuLimitParams.mk p q)) :
    (q = -1 → get_cpu_limit_cores k fs = .ok (-1)) ∧
    (q ≠ -1 → p ≠ 0 →
      get_cpu_limit_cores k fs = .ok ((q : Rat) / (p : Rat))) := by
  constructor
  · intro hq
    subst hq
    simp [get_cpu_limit_cores, h]
  · intro hq hp
    simp [get_cpu_limit_cores, h, hq, pyDiv, hp]

/-- C1 witness: a v1 cgroup with period 100 and quota 50 yields 50/100
cores; a v2 cgroup with `cpu.max` = `max 0` (unbounded quota, zero period)
yields exactly -1 with no division error. -/
theorem c1_witness :
    get_cpu_limit_cores .v1
      [("cpu.cfs_period_us", "100"), ("cpu.cfs_quota_us", "50")] =
      .ok ((50 : Rat) / (100 : Rat)) ∧
    get_cpu_limit_cores .v2 [("cpu.max", "max 0")] = .ok (-1) := by
  constructor
  · exact (c1_get_cpu_limit_cores .v1
      [("cpu.cfs_period_us", "100"), ("cpu.cfs_quota_us", "50")] 100 50
      rfl).2 (by decide) (by decide)
  · exact (c1_get_cpu_limit_cores .v2 [("cpu.max", "max 0")] 0 (-1) rfl).1 rfl

/-- C10: the division in `get_cpu_limit_cores` is guarded only against
quota = -1, not against a zero period: whenever the quota is not -1 and
the period reads 0, the call fails with `ZeroDivisionError`. -/
theorem c10_zero_period (k : CpuVariantKind) (fs : FileSystem) (p q : Int)
    (h : get_cpu_limit_params k fs = .ok (CpuLimitParams.mk p q))
    (hq : q ≠ -1) (hp : p = 0) :
    get_cpu_limit_cores k fs = .error .zeroDivisionError := by
  subst hp
  simp [get_cpu_limit_cores, h, hq, pyDiv]

/-- C10 witness: a v1 cgroup with period file `0` and quota file `50`
makes `get_cpu_limit_cores` raise `ZeroDivisionError`. -/
theorem c10_witness :
    get_cpu_limit_cores .v1
      [("cpu.cfs_period_us", "0"), ("cpu.cfs_quota_us", "50")] =
      .error .zeroDivisionError :=
  c10_zero_period .v1 [("cpu.cfs_period_us", "0"), ("cpu.cfs_quota_us", "50")]
    0 50 rfl (by decide) rfl

/-- C4: for every variant, valid (nonzero) period `p` and quota `q ≠ -1`,
`set_cpu_limit_quota q` succeeds and a subsequent `get_cpu_limit_cores`
returns exactly `q / p` (exact rational arithmetic). -/
theorem c4_set_quota_then_get (k : CpuVariantKind) (fs : FileSystem)
    (p q : Int) (hp : get_cpu_limit_period k fs = .ok p) (hpne : p ≠ 0)
    (hq : q ≠ -1) :
    set_cpu_limit_quota k fs q = .ok (quotaWriteResult k fs q p) ∧
    get_cpu_limit_cores k (quotaWriteResult k fs q p) =
      .ok ((q : Rat) / (p : Rat)) :=
  ⟨set_cpu_limit_quota_eq k fs p q hp,
   cores_after_quota_write k fs p q hp hpne hq⟩

/-- C4 witness: period 100 and quota 300 read back as 300/100 cores in
both variants. -/
theorem c4_witness :
    (set_cpu_limit_quota .v1
        [("cpu.cfs_period_us", "100"), ("cpu.cfs_quota_us", "50")] 300 =
      .ok (quotaWriteResult .v1
        [("cpu.cfs_period_us", "100"), ("cpu.cfs_quota_us", "50")] 300 100) ∧
     get_cpu_limit_cores .v1 (quotaWriteResult .v1
        [("cpu.cfs_period_us", "100"), ("cpu.cfs_quota_us", "50")] 300 100) =
      .ok ((300 : Rat) / (100 : Rat))) ∧
    (set_cpu_limit_quota .v2 [("cpu.max", "50 100")] 300 =
      .ok (quotaWriteResult .v2 [("cpu.max", "50 100")] 300 100) ∧
     get_cpu_limit_cores .v2 (quotaWriteResult .v2 [("cpu.max", "50 100")] 300 100) =
      .ok ((300 : Rat) / (100 : Rat))) := by
  constructor
  · exact c4_set_quota_then_get .v1
      [("cpu.cfs_period_us", "100"), ("cpu.cfs_quota_us", "50")] 100 300
      rfl (by decide) (by decide)
  · exact c4_set_quota_then_get .v2 [("cpu.max", "50 100")] 100 300
      rfl (by decide) (by decide)

/-- C2 counterexample: the claim says `set_cpu_limit_cores(c)` sets the
quota to `floor(period * cores)`, but the source computes
`int(period * cores)`, which truncates toward zero.  At period 100 and
cores -101/200 (i.e. -0.505) the code writes quota -50 (and reads back
-50), whereas `floor(100 * (-101/200)) = floor(-50.5) = -51`. -/
theorem c2_counterexample :
    set_cpu_limit_cores .v1 [("cpu.cfs_period_us", "100")] (-101 / 200) =
      .ok [("cpu.cfs_period_us", "100"), ("cpu.cfs_quota_us", "-50")] ∧
    get_cpu_limit_quota .v1
      [("cpu.cfs_period_us", "100"), ("cpu.cfs_quota_us", "-50")] =
      .ok (-50) ∧
    ⌊(100 : Rat) * (-101 / 200)⌋ = -51 ∧
    (-50 : Int) ≠ -51 := by
  refine ⟨?_, rfl, ?_, by decide⟩
  · have hper : get_cpu_limit_period .v1 [("cpu.cfs_period_us", "100")] =
        .ok 100 := rfl
    rw [set_cpu_limit_cores, hper]
    show set_cpu_limit_quota .v1 [("cpu.cfs_period_us", "100")]
        (pyTruncInt (((100 : Int) : Rat) * (-101 / 200))) = _
    rw [pyTruncInt_hundred_neg]
    rfl
  · have h1 : (100 : Rat) * (-101 / 200) = -(101 / 2 : Rat) := by norm_num
    rw [h1, Int.floor_eq_iff]
    constructor <;> norm_num

theorem pyTruncInt_hundred_unbounded :
    pyTruncInt (((100 : Int) : Rat) * (-3 / 200)) = -1 := by
  have h1 : ((100 : Int) : Rat) * (-3 / 200) = -(3 / 2 : Rat) := by norm_num
  rw [h1, pyTruncInt_eq, if_neg (by norm_num)]
  rw [Int.ceil_eq_iff]
  constructor <;> norm_num

/-- C2 as amended: `set_cpu_limit_cores(c)` reads the current period `p`
fresh from the cgroup, then sets the quota to the truncation toward zero
of `p * c` (Python `int(...)`, which agrees with `floor(p * c)` for
`c ≥ 0` but not for negative products); a subsequent
`get_cpu_limit_cores` returns `trunc(p * c) / p` when `trunc(p * c)` is
not -1 (and the period is nonzero, so the ratio is defined), and returns
the unbounded sentinel -1.0 when `trunc(p * c)` happens to be -1 — e.g.
period 100 with cores -0.015 writes quota -1, which reads back as
unbounded. -/
theorem c2_amended_truncation (k : CpuVariantKind) (fs : FileSystem)
    (p : Int) (c : Rat) (hp : get_cpu_limit_period k fs = .ok p) :
    set_cpu_limit_cores k fs c =
      .ok (quotaWriteResult k fs (pyTruncInt ((p : Rat) * c)) p) ∧
    get_cpu_limit_quota k (quotaWriteResult k fs (pyTruncInt ((p : Rat) * c)) p) =
      .ok (pyTruncInt ((p : Rat) * c)) ∧
    (pyTruncInt ((p : Rat) * c) ≠ -1 → p ≠ 0 →
      get_cpu_limit_cores k (quotaWriteResult k fs (pyTruncInt ((p : Rat) * c)) p) =
        .ok ((pyTruncInt ((p : Rat) * c) : Rat) / (p : Rat))) ∧
    (pyTruncInt ((p : Rat) * c) = -1 →
      get_cpu_limit_cores k (quotaWriteResult k fs (pyTruncInt ((p : Rat) * c)) p) =
        .ok (-1)) := by
  refine ⟨?_, quota_after_quota_write k fs p _ hp,
    fun hq hpne => cores_after_quota_write k fs p _ hp hpne hq,
    fun hq => ?_⟩
  · rw [set_cpu_limit_cores, hp]
    exact set_cpu_limit_quota_eq k fs p _ hp
  · rw [hq]
    exact cores_after_unbounded_write k fs p hp

/-- C2 witness: period 100 with cores 101/200 (i.e. 0.505) truncates to
quota 50, not 51, and reads back as 50/100 cores; period 100 with cores
-3/200 (i.e. -0.015) truncates to quota -1, which reads back as the
unbounded sentinel -1.0 (v1 variant). -/
theorem c2_witness :
    (set_cpu_limit_cores .v1 [("cpu.cfs_period_us", "100")] (101 / 200) =
      .ok (quotaWriteResult .v1 [("cpu.cfs_period_us", "100")]
        (pyTruncInt ((100 : Rat) * (101 / 200))) 100) ∧
     get_cpu_limit_quota .v1 (quotaWriteResult .v1 [("cpu.cfs_period_us", "100")]
        (pyTruncInt ((100 : Rat) * (101 / 200))) 100) =
      .ok (pyTruncInt ((100 : Rat) * (101 / 200))) ∧
     (pyTruncInt ((100 : Rat) * (101 / 200)) ≠ -1 → (100 : Int) ≠ 0 →
       get_cpu_limit_cores .v1 (quotaWriteResult .v1 [("cpu.cfs_period_us", "100")]
          (pyTruncInt ((100 : Rat) * (101 / 200))) 100) =
        .ok ((pyTruncInt ((100 : Rat) * (101 / 200)) : Rat) / (100 : Rat))) ∧
     (pyTruncInt ((100 : Rat) * (101 / 200)) = -1 →
       get_cpu_limit_cores .v1 (quotaWriteResult .v1 [("cpu.cfs_period_us", "100")]
          (pyTruncInt ((100 : Rat) * (101 / 200))) 100) = .ok (-1))) ∧
    pyTruncInt ((100 : Rat) * (101 / 200)) = 50 ∧
    pyTruncInt ((100 : Rat) * (-3 / 200)) = -1 ∧
    get_cpu_limit_cores .v1 (quotaWriteResult .v1 [("cpu.cfs_period_us", "100")]
        (pyTruncInt ((100 : Rat) * (-3 / 200))) 100) = .ok (-1) :=
  ⟨c2_amended_truncation .v1 [("cpu.cfs_period_us", "100")] 100 (101 / 200) rfl,
   pyTruncInt_hundred_pos, pyTruncInt_hundred_unbounded,
   (c2_amended_truncation .v1 [("cpu.cfs_period_us", "100")] 100
     (-3 / 200) rfl).2.2.2 pyTruncInt_hundred_unbounded⟩

/-- C5: `reset_cpu_limit` sets the quota to -1 through the same
`set_cpu_limit_quota` call in both variants; afterwards
`get_cpu_limit_cores` returns exactly -1.0, the v1 quota file
`cpu.cfs_quota_us` reads `-1`, and the first field of the v2 `cpu.max`
file reads `max`. -/
theorem c5_reset_cpu_limit (fsa fsb : FileSystem) (pa pb : Int)
    (ha : get_cpu_limit_period .v1 fsa = .ok pa)
    (hb : get_cpu_limit_period .v2 fsb = .ok pb) :
    (∀ k fs0, reset_cpu_limit k fs0 = set_cpu_limit_quota k fs0 (-1)) ∧
    reset_cpu_limit .v1 fsa = .ok (quotaWriteResult .v1 fsa (-1) pa) ∧
    reset_cpu_limit .v2 fsb = .ok (quotaWriteResult .v2 fsb (-1) pb) ∧
    get_cpu_limit_cores .v1 (quotaWriteResult .v1 fsa (-1) pa) = .ok (-1) ∧
    get_cpu_limit_cores .v2 (quotaWriteResult .v2 fsb (-1) pb) = .ok (-1) ∧
    readFile (quotaWriteResult .v1 fsa (-1) pa) CPU_QUOTA_FILE = some "-1" ∧
    readFile (quotaWriteResult .v2 fsb (-1) pb) CPU_LIMIT_FILE =
      some ("max" ++ " " ++ intToStr pb) ∧
    pySplit ("max" ++ " " ++ intToStr pb) = "max" :: [intToStr pb] := by
  refine ⟨fun k fs0 => rfl,
    set_cpu_limit_quota_eq .v1 fsa pa (-1) ha,
    set_cpu_limit_quota_eq .v2 fsb pb (-1) hb,
    cores_after_unbounded_write .v1 fsa pa ha,
    cores_after_unbounded_write .v2 fsb pb hb, ?_, ?_, ?_⟩
  · rw [quotaWriteResult, readFile_writeFile_self]
    rfl
  · rw [quotaWriteResult, readFile_writeFile_self]
    rfl
  · exact pySplit_pair "max" (intToStr pb) (by decide) (by decide)
      (intToStr_data_ne_nil pb) (space_not_mem_intToStr_data pb)

/-- C5 witness: a v1 cgroup with period 100 / quota 50 and a v2 cgroup
with `cpu.max` = `50 100`, after `reset_cpu_limit`. -/
theorem c5_witness :
    (∀ k fs0, reset_cpu_limit k fs0 = set_cpu_limit_quota k fs0 (-1)) ∧
    reset_cpu_limit .v1
        [("cpu.cfs_period_us", "100"), ("cpu.cfs_quota_us", "50")] =
      .ok (quotaWriteResult .v1
        [("cpu.cfs_period_us", "100"), ("cpu.cfs_quota_us", "50")] (-1) 100) ∧
    reset_cpu_limit .v2 [("cpu.max", "50 100")] =
      .ok (quotaWriteResult .v2 [("cpu.max", "50 100")] (-1) 100) ∧
    get_cpu_limit_cores .v1 (quotaWriteResult .v1
        [("cpu.cfs_period_us", "100"), ("cpu.cfs_quota_us", "50")] (-1) 100) =
      .ok (-1) ∧
    get_cpu_limit_cores .v2
        (quotaWriteResult .v2 [("cpu.max", "50 100")] (-1) 100) = .ok (-1) ∧
    readFile (quotaWriteResult .v1
        [("cpu.cfs_period_us", "100"), ("cpu.cfs_quota_us", "50")] (-1) 100)
      CPU_QUOTA_FILE = some "-1" ∧
    readFile (quotaWriteResult .v2 [("cpu.max", "50 100")] (-1) 100)
      CPU_LIMIT_FILE = some ("max" ++ " " ++ intToStr 100) ∧
    pySplit ("max" ++ " " ++ intToStr 100) = "max" :: [intToStr 100] :=
  c5_reset_cpu_limit
    [("cpu.cfs_period_us", "100"), ("cpu.cfs_quota_us", "50")]
    [("cpu.max", "50 100")] 100 100 rfl rfl

/-- C6 counterexample: the claimed round-trip
`convert_outer_value_to_inner (convert_inner_value_to_outer x) = x` for
every inner integer string fails at `x = "-1"` (which converts to the
outer value -1 and back to `"max"`) and at the non-canonical string
`x = "007"` (which converts to 7 and back to `"7"`). -/
theorem c6_counterexample :
    convert_inner_value_to_outer "-1" = .ok (-1) ∧
    convert_outer_value_to_inner (-1) = "max" ∧
    ("max" : String) ≠ "-1" ∧
    convert_inner_value_to_outer "007" = .ok 7 ∧
    convert_outer_value_to_inner 7 = "7" ∧
    ("7" : String) ≠ "007" := by
  refine ⟨rfl, rfl, by decide, rfl, rfl, by decide⟩

/-- C6 as amended: the conversions are mutually inverse in the
outer-to-inner-to-outer direction on every integer including -1
(`"max"` ↔ -1); in the inner-to-outer-to-inner direction the round-trip
returns `x` for `x = "max"` and for every canonical integer string whose
value is not -1 — but not for `"-1"` (whose outer value renders back as
`"max"`) or for non-canonical digit strings such as `"007"`. -/
theorem c6_amended_roundtrip (v : Int) (x : String) (n : Int)
    (hx : parseInt x = some n) (hcanon : intToStr n = x) (hn : n ≠ -1) :
    convert_inner_value_to_outer (convert_outer_value_to_inner v) = .ok v ∧
    convert_inner_value_to_outer "max" = .ok (-1) ∧
    convert_outer_value_to_inner (-1) = "max" ∧
    convert_inner_value_to_outer x = .ok n ∧
    convert_outer_value_to_inner n = x := by
  refine ⟨convert_roundtrip_outer v, rfl, rfl, ?_, ?_⟩
  · have hne : x ≠ "max" := by
      rw [← hcanon]
      exact intToStr_ne_max n
    rw [convert_inner_value_to_outer, if_neg hne, pyIntE, hx]
  · rw [convert_outer_value_to_inner, if_neg hn, hcanon]

/-- C6 witness: outer -1 and the canonical inner string `"50"`. -/
theorem c6_witness :
    convert_inner_value_to_outer (convert_outer_value_to_inner (-1)) =
      .ok (-1) ∧
    convert_inner_value_to_outer "max" = .ok (-1) ∧
    convert_outer_value_to_inner (-1) = "max" ∧
    convert_inner_value_to_outer "50" = .ok 50 ∧
    convert_outer_value_to_inner 50 = "50" :=
  c6_amended_roundtrip (-1) "50" 50 rfl rfl (by decide)

/-- C7: `set_cpu_limit_quota` changes only the quota and leaves the
period unchanged: the v1 variant writes only `cpu.cfs_quota_us` (every
other interface file, in particular `cpu.cfs_period_us`, is untouched);
the v2 variant reads the current period from `cpu.max` before writing and
writes back that same period as the second field together with the new
quota, so the period reads back unchanged and every file other than
`cpu.max` is untouched. -/
theorem c7_set_quota_frame (fsa : FileSystem) (qa : Int) (fsb : FileSystem)
    (pb qb : Int) (hb : get_cpu_limit_period .v2 fsb = .ok pb) :
    set_cpu_limit_quota .v1 fsa qa =
      .ok (writeFile fsa CPU_QUOTA_FILE (intToStr qa)) ∧
    (∀ n, n ≠ CPU_QUOTA_FILE →
      readFile (writeFile fsa CPU_QUOTA_FILE (intToStr qa)) n =
        readFile fsa n) ∧
    set_cpu_limit_quota .v2 fsb qb =
      .ok (writeFile fsb CPU_LIMIT_FILE
        (convert_outer_value_to_inner qb ++ " " ++ intToStr pb)) ∧
    get_cpu_limit_period .v2 (writeFile fsb CPU_LIMIT_FILE
        (convert_outer_value_to_inner qb ++ " " ++ intToStr pb)) = .ok pb ∧
    (∀ n, n ≠ CPU_LIMIT_FILE →
      readFile (writeFile fsb CPU_LIMIT_FILE
        (convert_outer_value_to_inner qb ++ " " ++ intToStr pb)) n =
        readFile fsb n) := by
  refine ⟨rfl, fun n hn => readFile_writeFile_ne fsa CPU_QUOTA_FILE n _ hn,
    set_cpu_limit_quota_eq .v2 fsb pb qb hb, ?_,
    fun n hn => readFile_writeFile_ne fsb CPU_LIMIT_FILE n _ hn⟩
  exact period_after_quota_write .v2 fsb pb qb hb

/-- C7 witness: writing quota 300 against a v1 cgroup (period file kept
intact) and quota -1 against a v2 cgroup with `cpu.max` = `50 100`. -/
theorem c7_witness :
    set_cpu_limit_quota .v1 [("cpu.cfs_period_us", "100")] 300 =
      .ok (writeFile [("cpu.cfs_period_us", "100")] CPU_QUOTA_FILE
        (intToStr 300)) ∧
    (∀ n, n ≠ CPU_QUOTA_FILE →
      readFile (writeFile [("cpu.cfs_period_us", "100")] CPU_QUOTA_FILE
        (intToStr 300)) n = readFile [("cpu.cfs_period_us", "100")] n) ∧
    set_cpu_limit_quota .v2 [("cpu.max", "50 100")] (-1) =
      .ok (writeFile [("cpu.max", "50 100")] CPU_LIMIT_FILE
        (convert_outer_value_to_inner (-1) ++ " " ++ intToStr 100)) ∧
    get_cpu_limit_period .v2 (writeFile [("cpu.max", "50 100")] CPU_LIMIT_FILE
        (convert_outer_value_to_inner (-1) ++ " " ++ intToStr 100)) =
      .ok 100 ∧
    (∀ n, n ≠ CPU_LIMIT_FILE →
      readFile (writeFile [("cpu.max", "50 100")] CPU_LIMIT_FILE
        (convert_outer_value_to_inner (-1) ++ " " ++ intToStr 100)) n =
        readFile [("cpu.max", "50 100")] n) :=
  c7_set_quota_frame [("cpu.cfs_period_us", "100")] 300
    [("cpu.max", "50 100")] 100 (-1) rfl

/-- C3 counterexample: in the fallback scenario of
`test_cgroup_v2_fallback_to_root` — current core `root/base_controller/leaf`,
an intermediate parent supporting no controllers, and the mount root
supporting `cpu` — `get_subcgroup` delegates at the root (appending the
controller to the root's `cgroup.subtree_control`, leaving the parent's
untouched) but creates the child directly under the ROOT's path
`root/sub_cgroup`, not under the current core's path
`root/base_controller/leaf/sub_cgroup` as the claim states. -/
theorem c3_counterexample :
    get_subcgroup_v2
      [CgroupDirV2.mk ["root", "base_controller", "leaf"] [] [],
       CgroupDirV2.mk ["root", "base_controller"] [] [],
       CgroupDirV2.mk ["root"] ["cpu"] []]
      "/root" "cpu" "sub_cgroup" =
      .ok ([CgroupDirV2.mk ["root", "base_controller", "leaf"] [] [],
            CgroupDirV2.mk ["root", "base_controller"] [] [],
            CgroupDirV2.mk ["root"] ["cpu"] ["cpu"]],
           ["root", "sub_cgroup"]) ∧
    (["root", "sub_cgroup"] : List String) ≠
      ["root", "base_controller", "leaf", "sub_cgroup"] := by
  exact ⟨rfl, by decide⟩

/-- C3 as amended: for a v2 cgroup whose controller is supported (listed
in `cgroup.controllers`) only at the mount root and at no ancestor below
it, `get_subcgroup` enables delegation at the root level — appending the
controller to the root's `cgroup.subtree_control` (unless already
delegated), leaving every intermediate level untouched — and creates the
child directory directly under the ROOT's path (the ancestor that granted
delegation), not under the current core's path. -/
theorem c3_amended_fallback_to_root (front : List CgroupDirV2)
    (rootDir : CgroupDirV2) (rootPathStr controller name : String)
    (hfront : ∀ d ∈ front, controller ∉ d.controllers)
    (hroot : controller ∈ rootDir.controllers)
    (hnew : controller ∉ rootDir.subtree_control) :
    get_subcgroup_v2 (front ++ [rootDir]) rootPathStr controller name =
      .ok (front ++ [CgroupDirV2.mk rootDir.path rootDir.controllers
            (rootDir.subtree_control ++ [controller])],
           rootDir.path ++ [name]) := by
  induction front with
  | nil =>
    simp only [List.nil_append, get_subcgroup_v2, if_pos hroot, if_neg hnew]
  | cons d rest ih =>
    have hd : controller ∉ d.controllers := hfront d (by simp)
    have hrest : ∀ x ∈ rest, controller ∉ x.controllers :=
      fun x hx => hfront x (by simp [hx])
    simp only [List.cons_append, get_subcgroup_v2, if_neg hd, List.append_eq]
    rw [ih hrest]

/-- C3 witness: the amended statement at the scenario of
`test_cgroup_v2_fallback_to_root`. -/
theorem c3_witness :
    get_subcgroup_v2
      ([CgroupDirV2.mk ["root", "base_controller", "leaf"] [] [],
        CgroupDirV2.mk ["root", "base_controller"] [] []] ++
       [CgroupDirV2.mk ["root"] ["cpu"] []])
      "/root" "cpu" "sub_cgroup" =
      .ok ([CgroupDirV2.mk ["root", "base_controller", "leaf"] [] [],
            CgroupDirV2.mk ["root", "base_controller"] [] []] ++
           [CgroupDirV2.mk ["root"] ["cpu"] (([] : List String) ++ ["cpu"])],
           (["root"] : List String) ++ ["sub_cgroup"]) :=
  c3_amended_fallback_to_root
    [CgroupDirV2.mk ["root", "base_controller", "leaf"] [] [],
     CgroupDirV2.mk ["root", "base_controller"] [] []]
    (CgroupDirV2.mk ["root"] ["cpu"] []) "/root" "cpu" "sub_cgroup"
    (by decide) (by decide) (by decide)

/-- C9: for a v2 cgroup, if no ancestor from the current core up to and
including the mount root lists the requested controller in its
`cgroup.controllers`, `get_subcgroup` raises the delegation-failure
`AssertionError` whose message names the controller and the root path;
no success state (and hence no child directory) is produced. -/
theorem c9_delegation_failure (ancestors : List CgroupDirV2)
    (rootPathStr controller name : String)
    (h : ∀ d ∈ ancestors, controller ∉ d.controllers) :
    get_subcgroup_v2 ancestors rootPathStr controller name =
      .error (.assertionError
        (delegation_error_msg controller rootPathStr)) ∧
    (∀ r, get_subcgroup_v2 ancestors rootPathStr controller name ≠ .ok r) := by
  have hmain : get_subcgroup_v2 ancestors rootPathStr controller name =
      .error (.assertionError (delegation_error_msg controller rootPathStr)) := by
    induction ancestors with
    | nil => rfl
    | cons d rest ih =>
      have hd : controller ∉ d.controllers := h d (by simp)
      have hrest : ∀ x ∈ rest, controller ∉ x.controllers :=
        fun x hx => h x (by simp [hx])
      simp only [get_subcgroup_v2, if_neg hd]
      rw [ih hrest]
  exact ⟨hmain, fun r hr => by rw [hmain] at hr; exact Except.noConfusion hr⟩

/-- C9 witness: the scenario of `test_cgroup_v2` — the `memory` controller
is listed nowhere up to the root, whose `cgroup.controllers` is empty. -/
theorem c9_witness :
    get_subcgroup_v2
      [CgroupDirV2.mk ["root", "base_controller", "leaf"] [] [],
       CgroupDirV2.mk ["root", "base_controller"] ["cpu"] [],
       CgroupDirV2.mk ["root"] [] []]
      "/root" "memory" "sub_cgroup" =
      .error (.assertionError (delegation_error_msg "memory" "/root")) ∧
    (∀ r, get_subcgroup_v2
      [CgroupDirV2.mk ["root", "base_controller", "leaf"] [] [],
       CgroupDirV2.mk ["root", "base_controller"] ["cpu"] [],
       CgroupDirV2.mk ["root"] [] []]
      "/root" "memory" "sub_cgroup" ≠ .ok r) :=
  c9_delegation_failure
    [CgroupDirV2.mk ["root", "base_controller", "leaf"] [] [],
     CgroupDirV2.mk ["root", "base_controller"] ["cpu"] [],
     CgroupDirV2.mk ["root"] [] []]
    "/root" "memory" "sub_cgroup" (by decide)

/-- C8: for every v2 memory controller state,
`get_max_usage_in_bytes` raises `CgroupInterfaceNotSupported` (with the
message the repository test asserts) and never returns a value or a
sentinel; the v1 variant instead returns the integer content of
`memory.max_usage_in_bytes`. -/
theorem c8_max_usage (fs1 fs2 : FileSystem) (s : String) (n : Int)
    (h1 : readFile fs2 "memory.max_usage_in_bytes" = some s)
    (h2 : parseInt s = some n) :
    memV2_get_max_usage_in_bytes fs1 =
      .error (.cgroupInterfaceNotSupported
        "Interface file max_usage_in_bytes is not supported in cGroup v2") ∧
    (∀ m : Int, memV2_get_max_usage_in_bytes fs1 ≠ .ok m) ∧
    memV1_get_max_usage_in_bytes fs2 = .ok n := by
  refine ⟨rfl, fun m hm => Except.noConfusion hm, ?_⟩
  rw [memV1_get_max_usage_in_bytes, readInterfaceFile, h1]
  simp only []
  rw [pyIntE, h2]

/-- C8 witness: the empty v2 state and a v1 state whose peak-usage file
holds `400`. -/
theorem c8_witness :
    memV2_get_max_usage_in_bytes [] =
      .error (.cgroupInterfaceNotSupported
        "Interface file max_usage_in_bytes is not supported in cGroup v2") ∧
    (∀ m : Int, memV2_get_max_usage_in_bytes [] ≠ .ok m) ∧
    memV1_get_max_usage_in_bytes [("memory.max_usage_in_bytes", "400")] =
      .ok 400 :=
  c8_max_usage [] [("memory.max_usage_in_bytes", "400")] "400" 400 rfl rfl
